import Mathlib

/-!
Verification development for the DeepWideResearch repository.

Shallow embedding of the agentic research-loop orchestration subsystem:

* `src/deep_wide_research/research_strategy.py` — the LLM-driven research
  loop (`run_research_llm_driven`), tool dispatch (`execute_tool_calls`,
  `_execute_single_tool`) and the tool-interaction ledger.
* `src/deep_wide_research/newprompt.py` — the depth/breadth
  parameter-to-budget lookup (`generate_dynamic_research_config`).
* `src/deep_wide_research/mcp_client.py` — the provider registry
  (`MCPRegistry.collect_tools`), tool selection (`MCPClient.select_tools`)
  and client lifecycle (`MCPClient.close`).
* `src/deep_wide_research/engine.py` — the streaming bridge
  (`run_deep_research_stream`) and the non-streaming pipeline
  (`run_deep_research`, `final_report_generation`).

The language model is an external collaborator: each round's model output,
after `parse_tool_calls`, is a list of tool-call directives, so runs are
parameterized by `outputs : Nat → List ToolCall`, the parsed directives of
each round.  Likewise a provider client's `call_tool` either returns a
JSON-serializable value (modelled, already serialized, as a `String`) or
raises a transport error (modelled as `none`).
-/

/-- A parsed tool-call directive, the element type produced by
`parse_tool_calls` in `research_strategy.py`: `{"id": f"call_{idx+1}",
"tool": tool_data.get("tool", ""), "arguments": tool_data.get("arguments", {})}`.
The open JSON `arguments` object is carried as its serialized text. -/
structure ToolCall where
  id : String
  tool : String
  arguments : String
  deriving DecidableEq

/-- The value returned by `_execute_single_tool`:
`{"tool_call_id": tc["id"], "tool": tc["tool"], "result": result}` where
`result` is a JSON string (a dumped tool payload or a dumped error object). -/
structure ToolCallResult where
  tool_call_id : String
  tool : String
  result : String
  deriving DecidableEq

/-- Behavior of one MCP client's `call_tool` as seen by
`_execute_single_tool`: given a tool name and arguments it either returns a
serialized result (`some`, the `json.dumps(result)` of the successful call)
or raises (`none` — transport failure, protocol failure, or unknown tool on
that client, all of which surface as exceptions from `MCPClient.call_tool`). -/
def ClientBehavior : Type := String → String → Option String

/-- The `for client in mcp_clients: try ... break / except: continue` loop of
`_execute_single_tool`: the first client whose `call_tool` does not raise
provides the result; a raising client is skipped. -/
def firstClientResult : List ClientBehavior → ToolCall → Option String
  | [], _ => none
  | c :: rest, tc =>
    match c tc.tool tc.arguments with
    | some r => some r
    | none => firstClientResult rest tc

/-- `json.dumps({"error": f"Tool '{tc['tool']}' not found in any MCP server"})`,
the fallback result when every client failed. -/
def notFoundError (tool : String) : String :=
  "\x7b\"error\": \"Tool '" ++ tool ++ "' not found in any MCP server\"\x7d"

/-- `_execute_single_tool` (research_strategy.py lines 137-162): try each
client in order, capture total failure as an error-JSON result; always
returns a `ToolCallResult`, never propagates an exception. -/
def executeSingleTool (clients : List ClientBehavior) (tc : ToolCall) : ToolCallResult :=
  match firstClientResult clients tc with
  | some r => ⟨tc.id, tc.tool, r⟩
  | none => ⟨tc.id, tc.tool, notFoundError tc.tool⟩

/-- `execute_tool_calls` (research_strategy.py lines 165-180): dispatch every
parsed directive concurrently via `asyncio.gather`, which preserves the
input order of its awaitables, so the result list is the in-order map. -/
def executeToolCalls (toolCalls : List ToolCall) (clients : List ClientBehavior) :
    List ToolCallResult :=
  toolCalls.map (executeSingleTool clients)

/-- One entry of the `tool_interactions` ledger built in
`run_research_llm_driven` (lines 309-327).  The Python code stores
`tr.get("tool") or info.get("tool")`, which is `None` when both are missing,
hence `tool : Option String`; `result` is kept as the raw result text (the
code re-parses it with `json.loads` where possible, a representation change
that keeps the same information). -/
structure ToolInteraction where
  step : Nat
  id : String
  tool : Option String
  arguments : String
  result : String
  deriving DecidableEq

/-- `call_info_map = {tc["id"]: ... for tc in tool_calls}` followed by
`call_info_map.get(call_id)`: a Python dict comprehension keeps the last
binding for a duplicated key. -/
def callInfoLookup (toolCalls : List ToolCall) (callId : String) : Option ToolCall :=
  (toolCalls.filter (fun tc => tc.id = callId)).getLast?

/-- Build one ledger entry from a tool result (research_strategy.py lines
310-327): `{"step": step + 1, "id": call_id, "tool": tr.get("tool") or
info.get("tool"), "arguments": info.get("arguments", {}), "result": parsed}`. -/
def recordInteraction (step : Nat) (toolCalls : List ToolCall) (tr : ToolCallResult) :
    ToolInteraction :=
  let info := callInfoLookup toolCalls tr.tool_call_id
  { step := step + 1
    id := tr.tool_call_id
    tool := if tr.tool = "" then info.map (fun tc => tc.tool) else some tr.tool
    arguments := (info.map (fun tc => tc.arguments)).getD "\x7b\x7d"
    result := tr.result }

/-- The ledger entries contributed by one round's dispatch. -/
def roundLedger (step : Nat) (toolCalls : List ToolCall) (clients : List ClientBehavior) :
    List ToolInteraction :=
  (executeToolCalls toolCalls clients).map (recordInteraction step toolCalls)

/-- The three return paths of `run_research_llm_driven`'s tool-calling loop:
`completedFinalAnswer` — a round parsed no directives and the function
returns the accumulated JSON ledger (lines 279-287); `completedResearchDone`
— a round's directives contain `ResearchComplete` and the function returns
the transcript (lines 289-294); `exhausted` — the `for step in
range(max_steps)` loop finished and the accumulated ledger is returned
(lines 339-344). -/
inductive RunOutcome where
  | completedFinalAnswer
  | completedResearchDone
  | exhausted
  deriving DecidableEq

/-- Result of one research run: the termination path, the accumulated
`tool_interactions` ledger, and — one entry per round that dispatched calls
— the `tools_being_used` list handed to `status_callback` / dispatched via
`execute_tool_calls` (lines 299-307). -/
structure RunResult where
  outcome : RunOutcome
  ledger : List ToolInteraction
  dispatchLog : List (List String)
  deriving DecidableEq

/-- `any(tc["tool"] == "ResearchComplete" for tc in tool_calls)` (line 290). -/
def hasResearchComplete (toolCalls : List ToolCall) : Bool :=
  toolCalls.any (fun tc => tc.tool = "ResearchComplete")

/-- A round with this parsed output dispatches its directives and continues
the loop (neither of the two early-return checks fires). -/
def dispatchesRound (toolCalls : List ToolCall) : Bool :=
  !toolCalls.isEmpty && !hasResearchComplete toolCalls

/-- The `for step in range(max_steps)` tool-calling loop of
`run_research_llm_driven` (research_strategy.py lines 253-344), recursing on
the remaining rounds.  Per round, in source order: no parsed directives →
return (final answer); `ResearchComplete` among the directives → return
(research completed by agent), dispatching nothing; otherwise dispatch all
parsed directives, extend the ledger and the status log, continue.  When the
rounds run out the accumulated ledger is returned. -/
def researchLoop (outputs : Nat → List ToolCall) (clients : List ClientBehavior) :
    Nat → Nat → List ToolInteraction → List (List String) → RunResult
  | 0, _, ledger, log => ⟨.exhausted, ledger, log⟩
  | fuel + 1, step, ledger, log =>
    let toolCalls := outputs step
    if toolCalls.isEmpty then ⟨.completedFinalAnswer, ledger, log⟩
    else if hasResearchComplete toolCalls then ⟨.completedResearchDone, ledger, log⟩
    else
      researchLoop outputs clients fuel (step + 1)
        (ledger ++ roundLedger step toolCalls clients)
        (log ++ [toolCalls.map (fun tc => tc.tool)])

/-- Number of consecutive rounds, starting at `step` with `fuel` rounds
remaining, that dispatch tool calls before the loop stops (by early return
or by running out of rounds). -/
def dispatchSpan (outputs : Nat → List ToolCall) : Nat → Nat → Nat
  | 0, _ => 0
  | fuel + 1, step =>
    if dispatchesRound (outputs step) then dispatchSpan outputs fuel (step + 1) + 1 else 0

/-- `run_research_llm_driven` (research_strategy.py lines 183-344).  The
`deep_param` / `wide_param` arguments are used only to build the system
prompt via `create_unified_research_prompt` (lines 233-239) — prompt text is
input to the external model, whose parsed outputs are already the `outputs`
parameter — while the loop bound is `max_steps = getattr(cfg,
'max_react_tool_calls', 8)` (line 248), taken from the configuration object,
not from the depth/breadth lookup. -/
def run_research_llm_driven (deep_param wide_param : ℚ) (max_react_tool_calls : Nat)
    (outputs : Nat → List ToolCall) (clients : List ClientBehavior) : RunResult :=
  researchLoop outputs clients max_react_tool_calls 0 [] []

/-- One entry of `deep_settings` in `newprompt.py` (lines 200-225). -/
structure DeepSetting where
  level : String
  evidence : String
  max_search_rounds : Nat
  guidance : String
  deriving DecidableEq

/-- One entry of `wide_settings` in `newprompt.py` (lines 228-253). -/
structure WideSetting where
  aspects : String
  strategy : String
  max_calls_per_round : Nat
  guidance : String
  deriving DecidableEq

/-- The `deep_settings` dict of `generate_dynamic_research_config`
(newprompt.py lines 200-225): a fixed four-key lookup; `none` models the
`KeyError` raised by `deep_settings[deep_param]` for any other key. -/
def deep_settings (deep_param : ℚ) : Option DeepSetting :=
  if deep_param = 0.25 then
    some { level := "basic"
           evidence := "basic facts and 1-2 examples per aspect"
           max_search_rounds := 2
           guidance := "Focus on surface facts and clear definitions; validate with quick cross-checks; avoid deep rabbit holes; keep assumptions minimal." }
  else if deep_param = 0.5 then
    some { level := "standard"
           evidence := "solid evidence and 2-4 examples per aspect"
           max_search_rounds := 4
           guidance := "Analyze context, causes and effects; propose simple hypotheses and verify with at least two independent sources; capture contradictions and resolve them briefly." }
  else if deep_param = 0.75 then
    some { level := "detailed"
           evidence := "detailed evidence and 4-8 examples with supporting data"
           max_search_rounds := 8
           guidance := "For each key point, deep-dive with sub-questions; form hypotheses, gather primary sources, triangulate across multiple independent sources; quantify with numbers and benchmarks; explicitly test counter-hypotheses and explain contradictions." }
  else if deep_param = 1.0 then
    some { level := "professional"
           evidence := "professional evidence with 8-16 examples, statistics, and expert analysis"
           max_search_rounds := 16
           guidance := "Exhaustive deep-dive: decompose into sub-questions; build an evidence tree; seek primary and longitudinal data; perform cross-source validation and sensitivity checks; analyze mechanisms, timelines, edge cases; articulate limitations and counterarguments." }
  else none

/-- The `wide_settings` dict of `generate_dynamic_research_config`
(newprompt.py lines 228-253): a fixed four-key lookup; `none` models the
`KeyError` raised by `wide_settings[wide_param]` for any other key. -/
def wide_settings (wide_param : ℚ) : Option WideSetting :=
  if wide_param = 0.25 then
    some { aspects := "1-2 core aspects"
           strategy := "focused analysis"
           max_calls_per_round := 2
           guidance := "Prioritize the most relevant angle(s) only; select the highest-signal sources; avoid tangents; ensure at least one authoritative source per aspect." }
  else if wide_param = 0.5 then
    some { aspects := "2-4 main aspects"
           strategy := "balanced coverage"
           max_calls_per_round := 4
           guidance := "Cover multiple angles: official documentation + independent verification; include timeline and stakeholder views; compare at least one alternative or baseline." }
  else if wide_param = 0.75 then
    some { aspects := "4-8 broad aspects"
           strategy := "comprehensive coverage"
           max_calls_per_round := 4
           guidance := "Explore from multiple perspectives: stakeholders, geographies, time horizons, comparable products/approaches; include neutral and critical sources; surface controversies and trade-offs." }
  else if wide_param = 1.0 then
    some { aspects := "8-16 multi-dimensional aspects"
           strategy := "exhaustive multi-angle analysis"
           max_calls_per_round := 16
           guidance := "All-round coverage: technical, business, user, security, policy/regulation, and international perspectives; include academic papers, official reports, datasets, code repos, and high-quality journalism; compare schools of thought and dissenting opinions." }
  else none

/-- `generate_dynamic_research_config` (newprompt.py lines 196-288): the two
dict lookups `deep_settings[deep_param]` and `wide_settings[wide_param]`;
either missing key raises `KeyError` (modelled by `none`).  The function
then derives the prompt text blocks from the two selected settings; the
blocks are pure formatting of the returned settings and carry no further
decision, so the embedding returns the settings pair. -/
def generate_dynamic_research_config (deep_param wide_param : ℚ) :
    Option (DeepSetting × WideSetting) :=
  match deep_settings deep_param, wide_settings wide_param with
  | some d, some w => some (d, w)
  | _, _ => none

/-- The "complete" event of `run_deep_research_stream` carries
`state["final_report"]`; the `using_tools` events carry the per-round tool
lists (before the message-formatting dedup/truncation). -/
inductive StreamEvent where
  | thinking (message : String)
  | usingTools (tools : List String)
  | generating (message : String)
  | complete (finalReport : String)
  deriving DecidableEq

/-- `run_deep_research_stream` (engine.py lines 70-166) on its normal path:
yield `thinking` once, then pump the status queue while the research task
runs and drain it after (the queue is unbounded and order-preserving, so the
yielded `using_tools` events are exactly the `status_callback` messages, one
per round that dispatched calls, in round order), then yield `generating`,
run `final_report_generation`, and yield the terminal `complete` carrying
`state["final_report"]` (the report text is produced by the external model,
hence a parameter). -/
def run_deep_research_stream (deep_param wide_param : ℚ) (max_react_tool_calls : Nat)
    (outputs : Nat → List ToolCall) (clients : List ClientBehavior)
    (reportContent : String) : List StreamEvent :=
  let research := run_research_llm_driven deep_param wide_param max_react_tool_calls
    outputs clients
  [StreamEvent.thinking "thinking..."]
    ++ research.dispatchLog.map (fun tools => StreamEvent.usingTools tools)
    ++ [StreamEvent.generating "research finished, generating...",
        StreamEvent.complete reportContent]

/-- A tool descriptor as returned by `MCPClient.list_tools` and consumed by
`select_tools` / `collect_tools`; only `name` is inspected by selection, the
rest of the dict rides along (represented by `description`). -/
structure MCPTool where
  name : String
  description : String
  deriving DecidableEq

/-- `MCPServerConfig` (mcp_client.py lines 35-54).  `command`, `args`,
`env`, `server_url` carried for fidelity; collection logic reads only
`transport_type`. -/
structure MCPServerConfig where
  name : String
  transport_type : String := "stdio"
  command : Option String := none
  args : List String := []
  env : List (String × String) := []
  server_url : Option String := none
  description : String := ""
  deriving DecidableEq

/-- The registry's `_servers` dict: string keys to configurations, modelled
as an association list with unique keys (Python dict lookup). -/
def registryGet (servers : List (String × MCPServerConfig)) (name : String) :
    Option MCPServerConfig :=
  (servers.find? (fun p => p.1 = name)).map (fun p => p.2)

/-- `MCPRegistry.create_client` (mcp_client.py lines 185-216): `None` when
the name is not registered or the transport type is neither "stdio" nor
"http"; otherwise a connected client for that server (`MCPClient.connect`
only marks the client connected, so creation always succeeds for the two
known transports).  The live client is represented by its server name. -/
def createClient (servers : List (String × MCPServerConfig)) (name : String) :
    Option String :=
  match registryGet servers name with
  | none => none
  | some cfg =>
    if cfg.transport_type = "stdio" then some name
    else if cfg.transport_type = "http" then some name
    else none

/-- `MCPClient.select_tools` (mcp_client.py lines 468-482): filter the
discovered tools to the requested names; unknown names are silently
omitted. -/
def selectTools (allTools : List MCPTool) (toolNames : List String) : List MCPTool :=
  allTools.filter (fun tool => toolNames.contains tool.name)

/-- The body of `collect_tools`' `for server_name, tool_names in
config.items()` loop: `continue` when the provider is unregistered or
client creation yields `None`; otherwise track the client and extend the
tool list with the provider's selected tools. -/
def collectStep (servers : List (String × MCPServerConfig))
    (discovered : String → List MCPTool)
    (acc : List MCPTool × List String) (entry : String × List String) :
    List MCPTool × List String :=
  if (registryGet servers entry.1).isSome then
    match createClient servers entry.1 with
    | some client =>
      (acc.1 ++ selectTools (discovered entry.1) entry.2, acc.2 ++ [client])
    | none => acc
  else acc

/-- `MCPRegistry.collect_tools` (mcp_client.py lines 218-247): iterate the
selection in order; skip providers absent from `_servers`; create a client
for each present provider, append it, and extend the tool list with that
provider's discovered tools filtered to the requested names.  `discovered`
gives each provider's `list_tools` result. -/
def collectTools (servers : List (String × MCPServerConfig))
    (discovered : String → List MCPTool)
    (config : List (String × List String)) : List MCPTool × List String :=
  config.foldl (collectStep servers discovered) ([], [])

/-- The mutable state of an `MCPClient` (mcp_client.py lines 305-337):
`_connected` plus the transport resources set up in `__init__`; `close`
(lines 560-576) touches only `_connected`. -/
structure MCPClientState where
  transport_type : String
  connected : Bool
  session : Option String
  read_stream : Option String
  write_stream : Option String
  stdio_context : Option String
  deriving DecidableEq

/-- `MCPClient.__init__`: `self._connected = False`, all session fields
`None`. -/
def MCPClientState.init (transport : String) : MCPClientState :=
  ⟨transport, false, none, none, none, none⟩

/-- `MCPClient.connect` (mcp_client.py lines 370-392): early return when
already connected; otherwise (both transports defer their real session to
each operation) just sets `_connected = True`. -/
def MCPClientState.connect (s : MCPClientState) : MCPClientState :=
  if s.connected then s else { s with connected := true }

/-- `MCPClient.close` (mcp_client.py lines 560-576): `if not self._connected:
return`, otherwise set `_connected = False` (the open/close-per-call
strategy leaves nothing else to release). -/
def MCPClientState.close (s : MCPClientState) : MCPClientState :=
  if !s.connected then s else { s with connected := false }

/-- One entry of the `messages` list in the engine state. -/
structure ChatMessage where
  role : String
  content : String
  deriving DecidableEq

/-- The engine's state dict (engine.py lines 181-186). -/
structure ResearchState where
  messages : List ChatMessage
  research_brief : Option String
  notes : List String
  final_report : String
  deriving DecidableEq

/-- `final_report_generation` (engine.py lines 48-53): store the generated
report, unconditionally clear `notes`, and append the report as an
assistant message.  `generate_report` is one external model call returning
the report text, hence a parameter. -/
def final_report_generation (reportContent : String) (state : ResearchState) :
    ResearchState :=
  { state with
    final_report := reportContent
    notes := []
    messages := state.messages ++ [⟨"assistant", reportContent⟩] }

/-- `run_deep_research` (engine.py lines 169-231): build the initial state,
run the research phase (whose awaited result is `{"raw_notes": rawNotes}`,
a parameter since it comes from the external model loop), store the notes,
inject the raw-notes JSON as a user message when non-empty (the
`json.loads` validation try/except has no effect on the state), then run
`final_report_generation` and return the state. -/
def run_deep_research (userMessages : List String) (rawNotes : String)
    (reportContent : String) : ResearchState :=
  let state0 : ResearchState :=
    { messages := userMessages.map (fun m => ⟨"user", m⟩)
      research_brief := none
      notes := []
      final_report := "" }
  let state1 := { state0 with notes := if rawNotes = "" then [] else [rawNotes] }
  let state2 :=
    if rawNotes = "" then state1
    else { state1 with
           messages := state1.messages ++
             [⟨"user", "<RAW_NOTES_JSON>\n" ++ rawNotes ++ "\n</RAW_NOTES_JSON>"⟩] }
  final_report_generation reportContent state2

/-! ### Concrete inputs used by witnesses and counterexamples -/

/-- A model whose first output parses to three search directives (none of
them the completion directive) and whose second output parses to none. -/
def threeCallOutputs : Nat → List ToolCall := fun s =>
  if s = 0 then
    [⟨"call_1", "tavily-search", "\x7b\"query\": \"a\"\x7d"⟩,
     ⟨"call_2", "tavily-search", "\x7b\"query\": \"b\"\x7d"⟩,
     ⟨"call_3", "web_search_exa", "\x7b\"query\": \"c\"\x7d"⟩]
  else []

/-- A model that emits one search directive in every round. -/
def alwaysSearchOutputs : Nat → List ToolCall := fun _ =>
  [⟨"call_1", "tavily-search", "\x7b\"query\": \"q\"\x7d"⟩]

/-- Scenario A: the model's output contains exactly one completion
directive and no other directive. -/
def scenarioAOutputs : Nat → List ToolCall := fun _ =>
  [⟨"call_1", "ResearchComplete", "\x7b\x7d"⟩]

/-- A client on which every `call_tool` raises. -/
def failingClient : ClientBehavior := fun _ _ => none

/-- A two-provider registry mirroring the built-in Tavily (stdio) and Exa
(http) registrations. -/
def demoServers : List (String × MCPServerConfig) :=
  [("tavily", { name := "tavily", transport_type := "stdio" }),
   ("exa", { name := "exa", transport_type := "http" })]

/-- Discovery results for the demo registry. -/
def demoDiscovered : String → List MCPTool := fun n =>
  if n = "tavily" then
    [⟨"tavily-search", "web search"⟩, ⟨"tavily-extract", "page extraction"⟩]
  else if n = "exa" then [⟨"web_search_exa", "AI web search"⟩]
  else []

/-- A selection requesting an unregistered provider ("bing") and an unknown
tool name ("nonexistent-tool") alongside valid ones. -/
def demoSelection : List (String × List String) :=
  [("tavily", ["tavily-search", "nonexistent-tool"]),
   ("bing", ["bing-search"]),
   ("exa", ["web_search_exa"])]

/-! ### Helper lemmas about the research loop -/

theorem researchLoop_zero (o : Nat → List ToolCall) (c : List ClientBehavior)
    (step : Nat) (l : List ToolInteraction) (g : List (List String)) :
    researchLoop o c 0 step l g = ⟨.exhausted, l, g⟩ := rfl

theorem researchLoop_succ_empty {o : Nat → List ToolCall} {step : Nat}
    (c : List ClientBehavior) (fuel : Nat) (l : List ToolInteraction)
    (g : List (List String)) (h : (o step).isEmpty = true) :
    researchLoop o c (fuel + 1) step l g = ⟨.completedFinalAnswer, l, g⟩ := by
  simp [researchLoop, h]

theorem researchLoop_succ_complete {o : Nat → List ToolCall} {step : Nat}
    (c : List ClientBehavior) (fuel : Nat) (l : List ToolInteraction)
    (g : List (List String)) (hE : (o step).isEmpty = false)
    (hC : hasResearchComplete (o step) = true) :
    researchLoop o c (fuel + 1) step l g = ⟨.completedResearchDone, l, g⟩ := by
  simp [researchLoop, hE, hC]

theorem researchLoop_succ_dispatch {o : Nat → List ToolCall} {step : Nat}
    (c : List ClientBehavior) (fuel : Nat) (l : List ToolInteraction)
    (g : List (List String)) (h : dispatchesRound (o step) = true) :
    researchLoop o c (fuel + 1) step l g =
      researchLoop o c fuel (step + 1) (l ++ roundLedger step (o step) c)
        (g ++ [(o step).map (fun tc => tc.tool)]) := by
  simp only [dispatchesRound, Bool.and_eq_true, Bool.not_eq_true'] at h
  simp [researchLoop, h.1, h.2]

theorem dispatchSpan_le (o : Nat → List ToolCall) :
    ∀ fuel step, dispatchSpan o fuel step ≤ fuel := by
  intro fuel
  induction fuel with
  | zero => intro step; simp [dispatchSpan]
  | succ fuel ih =>
    intro step
    simp only [dispatchSpan]
    split
    · exact Nat.succ_le_succ (ih (step + 1))
    · exact Nat.zero_le _

/-- If a round's output is empty or contains the completion directive, the
round does not dispatch. -/
theorem dispatchesRound_false_of_empty {tcs : List ToolCall}
    (h : tcs.isEmpty = true) : dispatchesRound tcs = false := by
  simp [dispatchesRound, h]

theorem dispatchesRound_false_of_complete {tcs : List ToolCall}
    (h : hasResearchComplete tcs = true) : dispatchesRound tcs = false := by
  simp [dispatchesRound, h]

theorem isEmpty_false_of_hasResearchComplete {tcs : List ToolCall}
    (h : hasResearchComplete tcs = true) : tcs.isEmpty = false := by
  cases tcs <;> simp_all [hasResearchComplete]

/-- Master characterization of the loop: the run dispatches the first
`dispatchSpan` rounds in full, then either exhausts its rounds (when every
remaining round dispatched) or returns at the first non-dispatching round,
as a final answer when that round parsed nothing and as agent-completed
research otherwise. -/
theorem researchLoop_eq (o : Nat → List ToolCall) (c : List ClientBehavior)
    (fuel : Nat) :
    ∀ step l g, researchLoop o c fuel step l g =
      { outcome :=
          if dispatchSpan o fuel step = fuel then RunOutcome.exhausted
          else if (o (step + dispatchSpan o fuel step)).isEmpty = true then
            RunOutcome.completedFinalAnswer
          else RunOutcome.completedResearchDone
        ledger := l ++ (List.range' step (dispatchSpan o fuel step)).flatMap
          (fun i => roundLedger i (o i) c)
        dispatchLog := g ++ (List.range' step (dispatchSpan o fuel step)).map
          (fun i => (o i).map (fun tc => tc.tool)) } := by
  induction fuel with
  | zero => intro step l g; simp [researchLoop, dispatchSpan]
  | succ fuel ih =>
    intro step l g
    by_cases hE : (o step).isEmpty = true
    · have hspan : dispatchSpan o (fuel + 1) step = 0 := by
        simp [dispatchSpan, dispatchesRound_false_of_empty hE]
      rw [researchLoop_succ_empty c fuel l g hE]
      simp [hspan, hE]
    · rw [Bool.not_eq_true] at hE
      by_cases hC : hasResearchComplete (o step) = true
      · have hspan : dispatchSpan o (fuel + 1) step = 0 := by
          simp [dispatchSpan, dispatchesRound_false_of_complete hC]
        rw [researchLoop_succ_complete c fuel l g hE hC]
        simp [hspan, hE, hC]
      · rw [Bool.not_eq_true] at hC
        have hD : dispatchesRound (o step) = true := by
          simp [dispatchesRound, hE, hC]
        have hspan : dispatchSpan o (fuel + 1) step =
            dispatchSpan o fuel (step + 1) + 1 := by
          simp [dispatchSpan, hD]
        rw [researchLoop_succ_dispatch c fuel l g hD, ih]
        rw [hspan]
        have hidx : step + (dispatchSpan o fuel (step + 1) + 1) =
            (step + 1) + dispatchSpan o fuel (step + 1) := by omega
        congr 1
        · rw [hidx]
          by_cases hf : dispatchSpan o fuel (step + 1) = fuel <;> simp [hf]
        · rw [List.range'_succ]
          simp [List.append_assoc]
        · rw [List.range'_succ]
          simp [List.append_assoc]

/-- The loop exhausts its rounds exactly when every one of them dispatches. -/
theorem dispatchSpan_eq_fuel_iff (o : Nat → List ToolCall) :
    ∀ fuel step, dispatchSpan o fuel step = fuel ↔
      ∀ i, i < fuel → dispatchesRound (o (step + i)) = true := by
  intro fuel
  induction fuel with
  | zero => intro step; simp [dispatchSpan]
  | succ fuel ih =>
    intro step
    by_cases hD : dispatchesRound (o step) = true
    · simp only [dispatchSpan, hD, if_true]
      rw [Nat.add_right_cancel_iff, ih (step + 1)]
      constructor
      · intro h i hi
        match i, hi with
        | 0, _ => simpa using hD
        | i + 1, hi =>
          have := h i (Nat.lt_of_succ_lt_succ hi)
          simpa [Nat.add_comm, Nat.add_left_comm] using this
      · intro h i hi
        have := h (i + 1) (Nat.succ_lt_succ hi)
        simpa [Nat.add_comm, Nat.add_left_comm] using this
    · simp only [dispatchSpan, hD, if_false]
      constructor
      · intro h
        exact absurd h (Ne.symm (Nat.succ_ne_zero fuel))
      · intro h
        exact absurd (by simpa using h 0 (Nat.succ_pos fuel)) hD

/-- The span stops exactly at the first non-dispatching round. -/
theorem dispatchSpan_eq_of (o : Nat → List ToolCall) :
    ∀ fuel k step, k ≤ fuel →
      (∀ j, j < k → dispatchesRound (o (step + j)) = true) →
      dispatchesRound (o (step + k)) = false →
      dispatchSpan o fuel step = k := by
  intro fuel
  induction fuel with
  | zero =>
    intro k step hk _ _
    have hk0 : k = 0 := Nat.le_zero.mp hk
    subst hk0
    rfl
  | succ fuel ih =>
    intro k step hk hprev hstop
    match k with
    | 0 =>
      simp only [dispatchSpan]
      simpa using hstop
    | k + 1 =>
      have h0 : dispatchesRound (o step) = true := by
        simpa using hprev 0 (Nat.succ_pos k)
      simp only [dispatchSpan, h0, if_true, Nat.add_right_cancel_iff]
      refine ih k (step + 1) (Nat.le_of_succ_le_succ hk) ?_ ?_
      · intro j hj
        have := hprev (j + 1) (Nat.succ_lt_succ hj)
        simpa [Nat.add_comm, Nat.add_left_comm] using this
      · simpa [Nat.add_comm, Nat.add_left_comm] using hstop

/-! ### Helper lemmas about the registry -/

/-- When every registered transport is one of the two supported kinds,
client creation succeeds for every registered provider. -/
theorem createClient_of_registered {servers : List (String × MCPServerConfig)}
    (hT : ∀ p ∈ servers,
      p.2.transport_type = "stdio" ∨ p.2.transport_type = "http")
    {name : String} (h : (registryGet servers name).isSome = true) :
    createClient servers name = some name := by
  unfold registryGet at h
  cases hfind : servers.find? (fun p => p.1 = name) with
  | none => rw [hfind] at h; simp at h
  | some p =>
    have hmem := List.mem_of_find?_eq_some hfind
    unfold createClient registryGet
    rw [hfind]
    rcases hT p hmem with hc | hc <;> simp [hc]

/-- Generalized accumulator form of `collectTools`. -/
theorem collectTools_foldl {servers : List (String × MCPServerConfig)}
    (discovered : String → List MCPTool)
    (hT : ∀ p ∈ servers,
      p.2.transport_type = "stdio" ∨ p.2.transport_type = "http") :
    ∀ (config : List (String × List String)) (acc : List MCPTool × List String),
      config.foldl (collectStep servers discovered) acc =
        (acc.1 ++ (config.filter (fun e => (registryGet servers e.1).isSome)).flatMap
           (fun e => selectTools (discovered e.1) e.2),
         acc.2 ++ (config.filter (fun e => (registryGet servers e.1).isSome)).map
           (fun e => e.1)) := by
  intro config
  induction config with
  | nil => intro acc; simp
  | cons entry rest ih =>
    intro acc
    by_cases h : (registryGet servers entry.1).isSome = true
    · rw [List.foldl_cons]
      have hstep : collectStep servers discovered acc entry =
          (acc.1 ++ selectTools (discovered entry.1) entry.2, acc.2 ++ [entry.1]) := by
        unfold collectStep
        rw [createClient_of_registered hT h]
        simp [h]
      rw [hstep, ih]
      simp [List.filter_cons, h, List.append_assoc]
    · have h' : (registryGet servers entry.1).isSome = false := by
        simpa using h
      rw [List.foldl_cons]
      have hstep : collectStep servers discovered acc entry = acc := by
        unfold collectStep
        simp [h']
      rw [hstep, ih]
      simp [List.filter_cons, h']

/-- `getLast?` of an event list shaped like the streaming bridge's output:
a head event, a middle section, and a two-event tail. -/
theorem getLast?_cons_append_pair {α : Type} (a x y : α) (l : List α) :
    (a :: (l ++ [x, y])).getLast? = some y := by
  have h : a :: (l ++ [x, y]) = (a :: (l ++ [x])) ++ [y] := by
    simp
  rw [h, List.getLast?_concat]

/-! ### Claim theorems -/

/-- C1, counterexample: with breadth 0.25 the budget lookup gives
`max_calls_per_round = 2`, yet a round whose model output parses to three
tool-call directives dispatches all three in that same round — the
dispatch log of the whole run has a single round entry of length 3, so no
directive was deferred to a later round.  This contradicts the claim that
the number of directives dispatched in a round never exceeds the
breadth-derived budget, with the excess deferred. -/
theorem C1_counterexample :
    (wide_settings 0.25).map (fun w => w.max_calls_per_round) = some 2 ∧
    (run_research_llm_driven 0.5 0.25 8 threeCallOutputs []).dispatchLog =
      [["tavily-search", "tavily-search", "web_search_exa"]] ∧
    ¬(["tavily-search", "tavily-search", "web_search_exa"].length ≤ 2) :=
  ⟨by norm_num [wide_settings], by decide, by decide⟩

/-- C1 (amended): every round that dispatches does so for **all** of its
parsed directives at once — the dispatch log of a run is exactly, round by
round, the full list of tool names parsed from that round's model output.
The breadth-derived `max_calls_per_round` appears only in the prompt text
and is not enforced by the dispatcher, so nothing is ever deferred (and
nothing is dropped: deferral simply never happens because every parsed
directive runs in its own round). -/
theorem C1_all_parsed_directives_dispatched_same_round
    (d w : ℚ) (maxSteps : Nat) (o : Nat → List ToolCall)
    (c : List ClientBehavior) :
    (run_research_llm_driven d w maxSteps o c).dispatchLog =
      (List.range' 0 (dispatchSpan o maxSteps 0)).map
        (fun i => (o i).map (fun tc => tc.tool)) := by
  unfold run_research_llm_driven
  rw [researchLoop_eq]
  simp

/-- C2, counterexample: with depth 0.25 the budget lookup gives
`max_search_rounds = 2`, yet a run whose configuration object carries the
default `max_react_tool_calls = 8` performs 8 dispatching rounds before
exhausting — the loop bound is the configuration value, not the
depth-derived lookup, contradicting the claim that the loop's round bound
is the depth-derived value. -/
theorem C2_counterexample :
    (deep_settings 0.25).map (fun d => d.max_search_rounds) = some 2 ∧
    (run_research_llm_driven 0.25 0.5 8 alwaysSearchOutputs []).outcome =
      RunOutcome.exhausted ∧
    (run_research_llm_driven 0.25 0.5 8 alwaysSearchOutputs []).dispatchLog.length = 8 ∧
    ¬(8 ≤ 2) :=
  ⟨by norm_num [deep_settings], by decide, by decide, by decide⟩

/-- C2 (amended): the research loop performs at most
`cfg.max_react_tool_calls` rounds (default 8), a bound independent of the
depth parameter: the run result is unchanged under any change of
`deep_param`, whose lookup value (2/4/8/16) reaches only the prompt text. -/
theorem C2_round_bound_is_cfg_not_depth
    (d d' w : ℚ) (maxSteps : Nat) (o : Nat → List ToolCall)
    (c : List ClientBehavior) :
    (run_research_llm_driven d w maxSteps o c).dispatchLog.length ≤ maxSteps ∧
    run_research_llm_driven d w maxSteps o c =
      run_research_llm_driven d' w maxSteps o c := by
  constructor
  · unfold run_research_llm_driven
    rw [researchLoop_eq]
    simpa using dispatchSpan_le o maxSteps 0
  · rfl

/-- C3: the run exhausts its budget (the loop finishes all its rounds and
returns the accumulated ledger) exactly when every round up to the bound
parsed a non-empty directive list never containing `ResearchComplete`; in
every other case the loop returns early through one of its two `Completed`
paths. -/
theorem C3_exhausted_iff_no_completion
    (d w : ℚ) (maxSteps : Nat) (o : Nat → List ToolCall)
    (c : List ClientBehavior) :
    ((run_research_llm_driven d w maxSteps o c).outcome = RunOutcome.exhausted ↔
      ∀ i, i < maxSteps → dispatchesRound (o i) = true) ∧
    ((run_research_llm_driven d w maxSteps o c).outcome ≠ RunOutcome.exhausted ↔
      ∃ i, i < maxSteps ∧ dispatchesRound (o i) = false) := by
  have hmain : (run_research_llm_driven d w maxSteps o c).outcome =
      RunOutcome.exhausted ↔ dispatchSpan o maxSteps 0 = maxSteps := by
    unfold run_research_llm_driven
    rw [researchLoop_eq]
    by_cases h : dispatchSpan o maxSteps 0 = maxSteps
    · simp [h]
    · simp only [h, if_false]
      split <;> simp [h]
  constructor
  · rw [hmain, dispatchSpan_eq_fuel_iff]
    simp
  · rw [Ne, hmain, dispatchSpan_eq_fuel_iff]
    simp

/-- Witness for C3: a model that emits a search directive in every round
exhausts a 3-round budget. -/
theorem C3_witness :
    (run_research_llm_driven 0.5 0.5 3 alwaysSearchOutputs []).outcome =
      RunOutcome.exhausted :=
  (C3_exhausted_iff_no_completion 0.5 0.5 3 alwaysSearchOutputs []).1.mpr
    (fun _ _ => rfl)

/-- C4: when the loop reaches a round whose parsed directives contain
`ResearchComplete`, the run terminates in that round as agent-completed
research, dispatching none of that round's directives (the dispatch log
stops at the earlier rounds) and adding nothing to the ledger beyond the
earlier rounds' interactions. -/
theorem C4_completion_directive_priority
    (d w : ℚ) (maxSteps s : Nat) (o : Nat → List ToolCall)
    (c : List ClientBehavior)
    (hs : s < maxSteps)
    (hrc : hasResearchComplete (o s) = true)
    (hprev : ∀ j, j < s → dispatchesRound (o j) = true) :
    (run_research_llm_driven d w maxSteps o c).outcome =
      RunOutcome.completedResearchDone ∧
    (run_research_llm_driven d w maxSteps o c).dispatchLog.length = s ∧
    (run_research_llm_driven d w maxSteps o c).ledger =
      (List.range' 0 s).flatMap (fun i => roundLedger i (o i) c) := by
  have hspan : dispatchSpan o maxSteps 0 = s := by
    refine dispatchSpan_eq_of o maxSteps s 0 (Nat.le_of_lt hs) ?_ ?_
    · intro j hj
      simpa using hprev j hj
    · simpa using dispatchesRound_false_of_complete hrc
  unfold run_research_llm_driven
  rw [researchLoop_eq]
  refine ⟨?_, ?_, ?_⟩
  · simp [hspan, Nat.ne_of_lt hs, isEmpty_false_of_hasResearchComplete hrc]
  · simp [hspan]
  · simp [hspan]

/-- Witness for C4, Scenario A: a first-round output containing exactly one
completion directive and nothing else yields agent-completed research with
an empty tool-interaction ledger. -/
theorem C4_witness :
    (run_research_llm_driven 0.5 0.5 8 scenarioAOutputs []).outcome =
      RunOutcome.completedResearchDone ∧
    (run_research_llm_driven 0.5 0.5 8 scenarioAOutputs []).ledger = [] := by
  have h := C4_completion_directive_priority 0.5 0.5 8 0 scenarioAOutputs []
    (by decide) (by decide) (fun j hj => absurd hj (Nat.not_lt_zero j))
  exact ⟨h.1, by simpa using h.2.2⟩

/-- C5: over any selection, `collect_tools` returns exactly the in-order
concatenation, across requested providers present in the registry, of each
provider's discovered tools filtered to the requested names; unregistered
providers contribute nothing (and cause no error — collection is total),
and unknown tool names are silently dropped by the filter.  The hypothesis
reflects that every registered server uses one of the two supported
transports. -/
theorem C5_collect_tools_exact_union
    (servers : List (String × MCPServerConfig))
    (discovered : String → List MCPTool)
    (config : List (String × List String))
    (hT : ∀ p ∈ servers,
      p.2.transport_type = "stdio" ∨ p.2.transport_type = "http") :
    (collectTools servers discovered config).1 =
      (config.filter (fun e => (registryGet servers e.1).isSome)).flatMap
        (fun e => selectTools (discovered e.1) e.2) ∧
    (collectTools servers discovered config).2 =
      (config.filter (fun e => (registryGet servers e.1).isSome)).map
        (fun e => e.1) := by
  unfold collectTools
  rw [collectTools_foldl discovered hT]
  simp

/-- Witness for C5: the demo selection requests an unregistered provider
("bing") and an unknown tool name ("nonexistent-tool"); both are silently
omitted and the result is the two selected tools. -/
theorem C5_witness :
    (collectTools demoServers demoDiscovered demoSelection).1 =
      [⟨"tavily-search", "web search"⟩, ⟨"web_search_exa", "AI web search"⟩] := by
  have h := (C5_collect_tools_exact_union demoServers demoDiscovered demoSelection
    (by decide)).1
  exact h.trans (by decide)

/-- C6: per-tool-call failures are data, not exceptions.  The run's control
flow (outcome and per-round dispatch log) is identical for any two client
configurations, so no client failure can reach the loop; every directive in
a round gets exactly one result; when every client fails, the directive's
result carries the not-found error text; and a client that raises is simply
skipped in favor of the next one. -/
theorem C6_failures_captured_as_results
    (d w : ℚ) (maxSteps : Nat) (o : Nat → List ToolCall)
    (c c' : List ClientBehavior) :
    ((run_research_llm_driven d w maxSteps o c).outcome =
        (run_research_llm_driven d w maxSteps o c').outcome ∧
      (run_research_llm_driven d w maxSteps o c).dispatchLog =
        (run_research_llm_driven d w maxSteps o c').dispatchLog) ∧
    (∀ tcs : List ToolCall, (executeToolCalls tcs c).length = tcs.length) ∧
    (∀ tc : ToolCall, firstClientResult c tc = none →
      executeSingleTool c tc = ⟨tc.id, tc.tool, notFoundError tc.tool⟩) ∧
    (∀ (f : ClientBehavior) (rest : List ClientBehavior) (tc : ToolCall),
      f tc.tool tc.arguments = none →
      executeSingleTool (f :: rest) tc = executeSingleTool rest tc) := by
  refine ⟨⟨?_, ?_⟩, ?_, ?_, ?_⟩
  · unfold run_research_llm_driven
    rw [researchLoop_eq, researchLoop_eq]
  · unfold run_research_llm_driven
    rw [researchLoop_eq, researchLoop_eq]
  · intro tcs
    simp [executeToolCalls]
  · intro tc h
    simp [executeSingleTool, h]
  · intro f rest tc h
    simp [executeSingleTool, firstClientResult, h]

/-- Witness for C6: on a client list whose single client always raises, a
search directive's result is the captured not-found error text. -/
theorem C6_witness :
    executeSingleTool [failingClient] ⟨"call_1", "tavily-search", "\x7b\x7d"⟩ =
      ⟨"call_1", "tavily-search", notFoundError "tavily-search"⟩ :=
  (C6_failures_captured_as_results 0.5 0.5 8 alwaysSearchOutputs
    [failingClient] []).2.2.1 ⟨"call_1", "tavily-search", "\x7b\x7d"⟩ (by decide)

/-- C7: the parameter-to-budget mapper is a fixed lookup: depth 0.25 yields
`max_search_rounds = 2` and breadth 0.25 yields `max_calls_per_round = 2`,
while any depth or breadth value outside the four mapped keys (such as 0.4)
makes the lookup fail (the `KeyError` modelled by `none`) instead of
clamping or interpolating. -/
theorem C7_fixed_lookup_and_key_error :
    (generate_dynamic_research_config 0.25 0.25).map
        (fun p => (p.1.max_search_rounds, p.2.max_calls_per_round)) =
      some (2, 2) ∧
    (∀ d w : ℚ, ¬(d = 0.25 ∨ d = 0.5 ∨ d = 0.75 ∨ d = 1.0) →
      generate_dynamic_research_config d w = none) ∧
    (∀ d w : ℚ, ¬(w = 0.25 ∨ w = 0.5 ∨ w = 0.75 ∨ w = 1.0) →
      generate_dynamic_research_config d w = none) := by
  refine ⟨?_, ?_, ?_⟩
  · norm_num [generate_dynamic_research_config, deep_settings, wide_settings]
  · intro d w h
    push_neg at h
    obtain ⟨h1, h2, h3, h4⟩ := h
    have hd : deep_settings d = none := by
      simp [deep_settings, h1, h2, h3, h4]
    unfold generate_dynamic_research_config
    rw [hd]
  · intro d w h
    push_neg at h
    obtain ⟨h1, h2, h3, h4⟩ := h
    have hw : wide_settings w = none := by
      simp [wide_settings, h1, h2, h3, h4]
    unfold generate_dynamic_research_config
    rw [hw]
    cases deep_settings d <;> rfl

/-- The example unmapped value 0.4 of Scenario D matches none of the four
lookup keys. -/
theorem q04_unmapped :
    ¬((0.4 : ℚ) = 0.25 ∨ (0.4 : ℚ) = 0.5 ∨ (0.4 : ℚ) = 0.75 ∨ (0.4 : ℚ) = 1.0) := by
  norm_num

/-- Witness for C7: the unmapped value 0.4, whether as depth or breadth,
makes the mapper fail. -/
theorem C7_witness :
    generate_dynamic_research_config 0.4 0.25 = none ∧
    generate_dynamic_research_config 0.25 0.4 = none :=
  ⟨C7_fixed_lookup_and_key_error.2.1 0.4 0.25 q04_unmapped,
   C7_fixed_lookup_and_key_error.2.2 0.25 0.4 q04_unmapped⟩

/-- C8: a normally-completing streaming run emits exactly one `thinking`
event first, then one `using_tools` event per round that dispatched calls
(in round order, carrying that round's tool names), then one `generating`
event, then exactly one terminal `complete` event carrying the final report
text — and the `complete` event is the last element of the sequence, so
nothing follows it. -/
theorem C8_stream_event_order
    (d w : ℚ) (maxSteps : Nat) (o : Nat → List ToolCall)
    (c : List ClientBehavior) (report : String) :
    run_deep_research_stream d w maxSteps o c report =
      StreamEvent.thinking "thinking..." ::
        ((List.range' 0 (dispatchSpan o maxSteps 0)).map
            (fun i => StreamEvent.usingTools ((o i).map (fun tc => tc.tool))) ++
          [StreamEvent.generating "research finished, generating...",
           StreamEvent.complete report]) ∧
    (run_deep_research_stream d w maxSteps o c report).getLast? =
      some (StreamEvent.complete report) := by
  have hmain : run_deep_research_stream d w maxSteps o c report =
      StreamEvent.thinking "thinking..." ::
        ((List.range' 0 (dispatchSpan o maxSteps 0)).map
            (fun i => StreamEvent.usingTools ((o i).map (fun tc => tc.tool))) ++
          [StreamEvent.generating "research finished, generating...",
           StreamEvent.complete report]) := by
    unfold run_deep_research_stream run_research_llm_driven
    rw [researchLoop_eq]
    simp [List.map_map, Function.comp]
  exact ⟨hmain, hmain ▸ getLast?_cons_append_pair _ _ _ _⟩

/-- C9: `close` on a provider client is idempotent — a second `close` is a
no-op returning the same state — a `close` on an already-disconnected
client changes nothing, and `close` is safe on a freshly-constructed client
whose `connect` never ran. -/
theorem C9_close_idempotent (s : MCPClientState) :
    MCPClientState.close (MCPClientState.close s) = MCPClientState.close s ∧
    (s.connected = false → MCPClientState.close s = s) ∧
    (∀ t : String, MCPClientState.close (MCPClientState.init t) =
      MCPClientState.init t) := by
  refine ⟨?_, ?_, ?_⟩
  · by_cases h : s.connected <;> simp [MCPClientState.close, h]
  · intro h
    simp [MCPClientState.close, h]
  · intro t
    rfl

/-- Witness for C9: a connected stdio client closed twice equals it closed
once, and closing a never-connected http client leaves it unchanged. -/
theorem C9_witness :
    MCPClientState.close
        (MCPClientState.close (MCPClientState.connect (MCPClientState.init "stdio"))) =
      MCPClientState.close (MCPClientState.connect (MCPClientState.init "stdio")) ∧
    MCPClientState.close (MCPClientState.init "http") = MCPClientState.init "http" :=
  ⟨(C9_close_idempotent (MCPClientState.connect (MCPClientState.init "stdio"))).1,
   (C9_close_idempotent (MCPClientState.init "http")).2.1 rfl⟩

/-- C10: the state returned by the non-streaming pipeline always has an
empty `notes` list — `final_report_generation` unconditionally clears the
notes stored by the research phase — while the report text survives in
`final_report`. -/
theorem C10_notes_always_cleared
    (userMessages : List String) (rawNotes report : String) :
    (run_deep_research userMessages rawNotes report).notes = [] ∧
    (run_deep_research userMessages rawNotes report).final_report = report :=
  ⟨rfl, rfl⟩
